import Mathlib

/-!
Shallow embedding of the CineMate Care perception-to-action core
(the `src/backend` modules of the CineMate-AI repository) together with
proofs about its behaviour.

Conventions used throughout:
* Python floats (timestamps, dB levels, SSIM scores) are embedded as `ℚ`.
* External collaborators (OpenCV grayscale conversion, the skimage
  structural-similarity call) are abstract function parameters; a `none`
  result of the SSIM function models the exception branch of the call.
* Fallible operations return `Option`.
* Dictionaries with a fixed key set become structures; bookkeeping keys
  (`metadata`, `source`) that no control flow reads are omitted.
-/

namespace CineMate

/-- State tracked by `VisionCapture` for keyframe detection:
`previous_frame_gray` and `last_analysis_time` (`vision_capture.py`
lines 103-104).  `γ` is the type of grayscale frames. -/
structure KeyframeState (γ : Type) where
  previous_frame_gray : Option γ
  last_analysis_time : ℚ
deriving DecidableEq

/-- Detector state as set up in `VisionCapture.__init__`:
no remembered frame, `last_analysis_time = 0`. -/
def initKeyframeState (γ : Type) : KeyframeState γ :=
  ⟨none, 0⟩

/-- `VisionCapture.is_keyframe` (`vision_capture.py` lines 213-265), returning
the verdict together with the updated state.  `cvtGray` embeds
`cv2.cvtColor(..., COLOR_BGR2GRAY)`; `ssim` embeds the external skimage
structural-similarity call, `none` standing for its exception branch. -/
def is_keyframe {φ γ : Type} (cvtGray : φ → γ) (ssim : γ → γ → Option ℚ)
    (ssim_threshold max_interval_seconds : ℚ)
    (s : KeyframeState γ) (current_frame : φ) (current_time : ℚ) :
    Bool × KeyframeState γ :=
  match s.previous_frame_gray with
  | none => (true, ⟨some (cvtGray current_frame), current_time⟩)
  | some prev =>
    if max_interval_seconds ≤ current_time - s.last_analysis_time then
      (true, ⟨some (cvtGray current_frame), current_time⟩)
    else
      match ssim prev (cvtGray current_frame) with
      | none => (false, s)
      | some similarity =>
        if similarity < ssim_threshold then
          (true, ⟨some (cvtGray current_frame), current_time⟩)
        else (false, s)

/-- C7: on the very first evaluation (initial state, no remembered frame) the
detector returns `true` and remembers the grayscale frame and the call time,
for every frame, every call time and every configuration. -/
theorem is_keyframe_first_frame {φ γ : Type} (cvtGray : φ → γ)
    (ssim : γ → γ → Option ℚ) (th mi : ℚ) (f : φ) (t : ℚ) :
    is_keyframe cvtGray ssim th mi (initKeyframeState γ) f t =
      (true, ⟨some (cvtGray f), t⟩) :=
  rfl

/-- C5: whenever at least `max_interval_seconds` have elapsed since the last
accepted keyframe, the next evaluation returns `true` regardless of the
similarity function, and remembers the new frame and timestamp. -/
theorem is_keyframe_time_trigger {φ γ : Type} (cvtGray : φ → γ)
    (ssim : γ → γ → Option ℚ) (th mi : ℚ) (s : KeyframeState γ) (f : φ) (t : ℚ)
    (h : mi ≤ t - s.last_analysis_time) :
    is_keyframe cvtGray ssim th mi s f t = (true, ⟨some (cvtGray f), t⟩) := by
  cases hp : s.previous_frame_gray with
  | none => simp [is_keyframe, hp]
  | some prev => simp [is_keyframe, hp, h]

/-- Witness for `is_keyframe_time_trigger` at a concrete input. -/
theorem is_keyframe_time_trigger_witness :
    (15 : ℚ) ≤ 20 - 0 ∧
    is_keyframe (id : ℕ → ℕ) (fun _ _ => some 1) (19/20) 15 ⟨some 0, 0⟩ 3 20 =
      (true, ⟨some 3, 20⟩) :=
  ⟨by norm_num,
    is_keyframe_time_trigger id (fun _ _ => some 1) (19/20) 15 ⟨some 0, 0⟩ 3 20
      (by norm_num)⟩

/-- C6: on a non-first evaluation made before `max_interval_seconds` has
elapsed, when the similarity computation succeeds with score `score`, the
verdict is `true` iff `score` is strictly below the similarity threshold. -/
theorem is_keyframe_content_iff {φ γ : Type} (cvtGray : φ → γ)
    (ssim : γ → γ → Option ℚ) (th mi : ℚ) (s : KeyframeState γ) (f : φ)
    (t : ℚ) (prev : γ) (score : ℚ)
    (hp : s.previous_frame_gray = some prev)
    (ht : t - s.last_analysis_time < mi)
    (hs : ssim prev (cvtGray f) = some score) :
    ((is_keyframe cvtGray ssim th mi s f t).1 = true ↔ score < th) := by
  have hti : ¬ mi ≤ t - s.last_analysis_time := not_le.mpr ht
  by_cases hsc : score < th <;>
    simp [is_keyframe, hp, hti, hs, hsc]

/-- Witness for `is_keyframe_content_iff`: an identical second frame has
similarity score `1`, which is not below the threshold `0.95`, so the verdict
is not `true`. -/
theorem is_keyframe_content_iff_witness :
    (⟨some 0, 0⟩ : KeyframeState ℕ).previous_frame_gray = some 0 ∧
    (1 : ℚ) - 0 < 15 ∧
    (fun (_ _ : ℕ) => some (1 : ℚ)) 0 (id 0) = some 1 ∧
    ¬ ((is_keyframe (id : ℕ → ℕ) (fun _ _ => some 1) (19/20) 15
        ⟨some 0, 0⟩ 0 1).1 = true) :=
  ⟨rfl, by norm_num, rfl, by
    intro h
    have := (is_keyframe_content_iff id (fun _ _ => some 1) (19/20) 15
      ⟨some 0, 0⟩ 0 1 0 1 rfl (by norm_num) rfl).mp h
    norm_num at this⟩

/-- C4: a `false` verdict never mutates the detector state (in every branch
that returns `false`, including the failed-similarity branch, the remembered
frame and last accepted timestamp are unchanged), so re-evaluating the same
input yields the same result. -/
theorem is_keyframe_false_no_mutation {φ γ : Type} (cvtGray : φ → γ)
    (ssim : γ → γ → Option ℚ) (th mi : ℚ) (s : KeyframeState γ) (f : φ)
    (t : ℚ) (h : (is_keyframe cvtGray ssim th mi s f t).1 = false) :
    (is_keyframe cvtGray ssim th mi s f t).2 = s ∧
    is_keyframe cvtGray ssim th mi (is_keyframe cvtGray ssim th mi s f t).2 f t =
      is_keyframe cvtGray ssim th mi s f t := by
  have h2 : (is_keyframe cvtGray ssim th mi s f t).2 = s := by
    cases hp : s.previous_frame_gray with
    | none => simp [is_keyframe, hp] at h
    | some prev =>
      by_cases hti : mi ≤ t - s.last_analysis_time
      · simp [is_keyframe, hp, hti] at h
      · cases hs : ssim prev (cvtGray f) with
        | none => simp [is_keyframe, hp, hti, hs]
        | some score =>
          by_cases hsc : score < th
          · simp [is_keyframe, hp, hti, hs, hsc] at h
          · simp [is_keyframe, hp, hti, hs, hsc]
  exact ⟨h2, by rw [h2]⟩

/-- Witness for `is_keyframe_false_no_mutation` at a concrete input. -/
theorem is_keyframe_false_no_mutation_witness :
    (is_keyframe (id : ℕ → ℕ) (fun _ _ => some 1) (19/20) 15
      ⟨some 0, 0⟩ 0 1).1 = false ∧
    (is_keyframe (id : ℕ → ℕ) (fun _ _ => some 1) (19/20) 15
      ⟨some 0, 0⟩ 0 1).2 = ⟨some 0, 0⟩ :=
  ⟨by norm_num [is_keyframe],
    (is_keyframe_false_no_mutation id (fun _ _ => some 1) (19/20) 15
      ⟨some 0, 0⟩ 0 1 (by norm_num [is_keyframe])).1⟩

/-- State tracked by `AudioMonitor`: `current_db`, the smoothing history
deque (maxlen 50) and `last_loud_time` (`audio_monitor.py` lines 66-72).
Timestamps are in milliseconds (the code stores `datetime` values and
compares `total_seconds() * 1000` against `quiet_duration_ms`). -/
structure AudioState where
  current_db : ℚ
  db_history : List ℚ
  last_loud_time : Option ℚ
deriving DecidableEq

/-- Monitor state as set up in `AudioMonitor.__init__`. -/
def initAudioState : AudioState :=
  ⟨0, [], none⟩

/-- Append to a `deque(maxlen := n)`: the oldest entries are dropped once the
capacity is exceeded. -/
def dequeAppend (maxlen : ℕ) (h : List ℚ) (x : ℚ) : List ℚ :=
  if maxlen < (h ++ [x]).length then (h ++ [x]).drop ((h ++ [x]).length - maxlen)
  else h ++ [x]

/-- `AudioMonitor._process_db_level` (`audio_monitor.py` lines 167-180):
update `current_db`, append to the history, and remember `now` as
`last_loud_time` when the sample exceeds the threshold.  The `on_loud` and
`on_quiet` display callbacks touch no monitor state and are omitted. -/
def process_db_level (threshold_db : ℚ) (s : AudioState) (db now : ℚ) :
    AudioState :=
  { current_db := db
    db_history := dequeAppend 50 s.db_history db
    last_loud_time := if threshold_db < db then some now else s.last_loud_time }

/-- `AudioMonitor.is_quiet` (`audio_monitor.py` lines 199-214), evaluated at
time `now`. -/
def is_quiet (threshold_db quiet_duration_ms : ℚ) (s : AudioState) (now : ℚ) :
    Bool :=
  if threshold_db < s.current_db then false
  else
    match s.last_loud_time with
    | none => true
    | some t => decide (quiet_duration_ms ≤ now - t)

/-- Feeding a whole trace of `(level, timestamp)` samples through
`_process_db_level`. -/
def observeTrace (threshold_db : ℚ) (s : AudioState) :
    List (ℚ × ℚ) → AudioState
  | [] => s
  | p :: rest => observeTrace threshold_db (process_db_level threshold_db s p.1 p.2) rest

/-- The timestamp of the most recent sample of the trace strictly above the
threshold, if any. -/
def lastLoudOfTrace (threshold_db : ℚ) : List (ℚ × ℚ) → Option ℚ
  | [] => none
  | p :: rest =>
    match lastLoudOfTrace threshold_db rest with
    | some t => some t
    | none => if threshold_db < p.1 then some p.2 else none

/-- The level of the most recent sample of the trace, if any. -/
def lastLevelOfTrace : List (ℚ × ℚ) → Option ℚ
  | [] => none
  | p :: rest =>
    match lastLevelOfTrace rest with
    | some l => some l
    | none => some p.1

theorem observeTrace_last_loud (th : ℚ) (s : AudioState)
    (trace : List (ℚ × ℚ)) :
    (observeTrace th s trace).last_loud_time =
      (match lastLoudOfTrace th trace with
       | some t => some t
       | none => s.last_loud_time) := by
  induction trace generalizing s with
  | nil => rfl
  | cons p rest ih =>
    rw [observeTrace, ih]
    show _ = (match lastLoudOfTrace th (p :: rest) with
      | some t => some t
      | none => s.last_loud_time)
    rw [lastLoudOfTrace]
    cases lastLoudOfTrace th rest with
    | some t => rfl
    | none =>
      by_cases h : th < p.1 <;> simp [process_db_level, h]

theorem observeTrace_current (th : ℚ) (s : AudioState)
    (trace : List (ℚ × ℚ)) :
    (observeTrace th s trace).current_db =
      (match lastLevelOfTrace trace with
       | some l => l
       | none => s.current_db) := by
  induction trace generalizing s with
  | nil => rfl
  | cons p rest ih =>
    rw [observeTrace, ih]
    show _ = (match lastLevelOfTrace (p :: rest) with
      | some l => l
      | none => s.current_db)
    rw [lastLevelOfTrace]
    cases lastLevelOfTrace rest with
    | some l => rfl
    | none => simp [process_db_level]

theorem lastLoudOfTrace_eq_none_iff (th : ℚ) (trace : List (ℚ × ℚ)) :
    lastLoudOfTrace th trace = none ↔ ∀ p ∈ trace, ¬ th < p.1 := by
  induction trace with
  | nil => simp [lastLoudOfTrace]
  | cons p rest ih =>
    rw [lastLoudOfTrace]
    cases hr : lastLoudOfTrace th rest with
    | some t =>
      constructor
      · intro h; simp at h
      · intro h
        have hrest : ∀ q ∈ rest, ¬ th < q.1 :=
          fun q hq => h q (List.mem_cons_of_mem _ hq)
        rw [ih.mpr hrest] at hr
        simp at hr
    | none =>
      have hrest := ih.mp hr
      by_cases h : th < p.1
      · constructor
        · intro hh; simp [h] at hh
        · intro hh; exact absurd h (hh p (List.mem_cons_self _ _))
      · constructor
        · intro _ q hq
          rcases List.mem_cons.mp hq with rfl | hq'
          · exact h
          · exact hrest q hq'
        · intro _; simp [h]

/-- C3: after observing any trace of loudness samples, `is_quiet` at time
`now` is `false` whenever the current level strictly exceeds the threshold;
otherwise it is `true` when no sample of the trace ever exceeded the
threshold, and when some did, it is `true` exactly when at least
`quiet_duration_ms` milliseconds have elapsed since the most recent
above-threshold sample. -/
theorem is_quiet_spec (th dur now : ℚ) (trace : List (ℚ × ℚ)) :
    (th < (observeTrace th initAudioState trace).current_db →
      is_quiet th dur (observeTrace th initAudioState trace) now = false) ∧
    (¬ th < (observeTrace th initAudioState trace).current_db →
      ((∀ p ∈ trace, ¬ th < p.1) →
        is_quiet th dur (observeTrace th initAudioState trace) now = true) ∧
      (∀ tl, lastLoudOfTrace th trace = some tl →
        (is_quiet th dur (observeTrace th initAudioState trace) now = true ↔
          dur ≤ now - tl))) := by
  refine ⟨fun h => by simp [is_quiet, h], fun h => ⟨fun hnone => ?_, fun tl htl => ?_⟩⟩
  · have h0 : (observeTrace th initAudioState trace).last_loud_time = none := by
      rw [observeTrace_last_loud,
        (lastLoudOfTrace_eq_none_iff th trace).mpr hnone]
      rfl
    simp [is_quiet, h, h0, not_lt.mp h]
  · have h0 : (observeTrace th initAudioState trace).last_loud_time = some tl := by
      rw [observeTrace_last_loud, htl]
    simp [is_quiet, h, h0, not_lt.mp h]

/-- Witness for `is_quiet_spec`: threshold 70, quiet duration 500 ms, level 85
at t = 0 then level 40; speech is not permitted at t = 300 ms and is
permitted at t = 600 ms. -/
theorem is_quiet_spec_witness :
    (¬ (70:ℚ) < (observeTrace 70 initAudioState [(85, 0), (40, 0)]).current_db) ∧
    lastLoudOfTrace 70 [((85:ℚ), (0:ℚ)), (40, 0)] = some 0 ∧
    is_quiet 70 500 (observeTrace 70 initAudioState [(85, 0), (40, 0)]) 300 = false ∧
    is_quiet 70 500 (observeTrace 70 initAudioState [(85, 0), (40, 0)]) 600 = true := by
  have hcur : ¬ (70:ℚ) <
      (observeTrace 70 initAudioState [(85, 0), (40, 0)]).current_db := by
    rw [observeTrace_current]
    norm_num [lastLevelOfTrace]
  have hloud : lastLoudOfTrace 70 [((85:ℚ), (0:ℚ)), (40, 0)] = some 0 := by
    norm_num [lastLoudOfTrace]
  have h600 := ((is_quiet_spec 70 500 600 [(85, 0), (40, 0)]).2 hcur).2 0 hloud
  have h300 := ((is_quiet_spec 70 500 300 [(85, 0), (40, 0)]).2 hcur).2 0 hloud
  refine ⟨hcur, hloud, ?_, h600.mpr (by norm_num)⟩
  cases hb : is_quiet 70 500 (observeTrace 70 initAudioState [(85, 0), (40, 0)]) 300 with
  | false => rfl
  | true => exact absurd (h300.mp hb) (by norm_num)

/-- The payload `_vision_worker` pushes onto `caption_queue`
(`main.py` lines 253-258). -/
structure SceneObservation where
  caption : String
  timestamp : String
  people_count : ℕ
  dense_captions : List String
deriving DecidableEq

/-- `queue.Queue.put` for the unbounded FIFO created by `Queue()` at
`main.py` line 137, the queue represented as a list with its oldest element
at the head.  `put` on an unbounded queue never blocks and never discards. -/
def qput {α : Type} (q : List α) (x : α) : List α :=
  q ++ [x]

/-- `queue.Queue.get_nowait` as used in `_main_loop` (`main.py` line 347):
`none` models the `queue.Empty` exception. -/
def qget_nowait {α : Type} : List α → Option (α × List α)
  | [] => none
  | x :: rest => some (x, rest)

/-- Pushing a whole list of observations in order. -/
def qputAll {α : Type} (q : List α) (xs : List α) : List α :=
  xs.foldl qput q

/-- Repeatedly calling `get_nowait` until the queue reports empty, collecting
the received elements in order. -/
def qdrainAll {α : Type} (q : List α) : List α :=
  match _h : qget_nowait q with
  | none => []
  | some (x, rest) => x :: qdrainAll rest
termination_by q.length
decreasing_by
  cases q with
  | nil => simp [qget_nowait] at _h
  | cons a as =>
    simp only [qget_nowait, Option.some.injEq, Prod.mk.injEq] at _h
    simp [← _h.2, List.length_cons, Nat.lt_succ_self]

theorem qputAll_eq (α : Type) (q xs : List α) : qputAll q xs = q ++ xs := by
  induction xs generalizing q with
  | nil => simp [qputAll]
  | cons x rest ih =>
    rw [qputAll, List.foldl_cons]
    show qputAll (qput q x) rest = _
    rw [ih, qput]
    simp

theorem qdrainAll_eq (α : Type) (q : List α) : qdrainAll q = q := by
  induction q with
  | nil => rw [qdrainAll]; rfl
  | cons x rest ih =>
    rw [qdrainAll]
    show x :: qdrainAll rest = x :: rest
    rw [ih]

/-- Concrete observations used in the queue counterexample. -/
def obsA : SceneObservation :=
  ⟨"Scene: 1 person detected, sofa", "2025-01-01T12:00:00", 1, []⟩

/-- Second concrete observation, pushed after `obsA`. -/
def obsB : SceneObservation :=
  ⟨"Scene: 2 persons detected, table", "2025-01-01T12:00:15", 2, []⟩

/-- C1 counterexample: `caption_queue` is created as `Queue()` with no size
bound, so pushing a second observation before the first is consumed keeps
both queued (the queue holds 2 unconsumed items, not at most 1), and
`get_nowait` then delivers the OLDER observation `obsA`, not the most recent
one `obsB`. -/
theorem caption_queue_not_capacity_one :
    ¬ ((qput (qput ([] : List SceneObservation) obsA) obsB).length ≤ 1) ∧
    qget_nowait (qput (qput ([] : List SceneObservation) obsA) obsB) =
      some (obsA, [obsB]) := by
  constructor
  · show ¬ (([] ++ [obsA] ++ [obsB] : List SceneObservation).length ≤ 1)
    simp
  · rfl

/-- C1 (amended): the scene-observation queue is an unbounded FIFO.  A push
while an unconsumed observation is queued discards nothing — every push grows
the queue by one and the producer never blocks — and draining delivers every
pushed observation in push order, the oldest first, so the consumer receives
a backlog rather than only the most recent observation. -/
theorem caption_queue_unbounded_fifo (xs : List SceneObservation)
    (q : List SceneObservation) (x : SceneObservation) :
    qdrainAll (qputAll [] xs) = xs ∧ (qput q x).length = q.length + 1 := by
  constructor
  · rw [qputAll_eq, qdrainAll_eq]; rfl
  · simp [qput]

/-- The 30-second distress cooldown
(`main.py` line 133, `timedelta(seconds=30)`); times in seconds. -/
def distress_cooldown : ℚ := 30

/-- `CinemateCareOrchestrator._on_distress` (`main.py` lines 161-188): given
the stored `last_distress_check` and the current time, return the new stored
time together with whether the comfort message was spoken.  Inside the
cooldown the handler returns early: nothing is spoken and the stored time is
left unchanged. -/
def on_distress (last_distress_check now : ℚ) : ℚ × Bool :=
  if now - last_distress_check < distress_cooldown then
    (last_distress_check, false)
  else (now, true)

/-- Folding `_on_distress` over a list of distress-event times, collecting the
times at which the comfort message was spoken. -/
def run_distress (last_distress_check : ℚ) : List ℚ → List ℚ
  | [] => []
  | now :: rest =>
    let r := on_distress last_distress_check now
    if r.2 then now :: run_distress r.1 rest else run_distress r.1 rest

/-- C10: a distress event reported less than `distress_cooldown` after the
stored check time produces no speech and leaves the cooldown clock untouched;
consequently, over any sequence of distress events, any two spoken comfort
responses are at least 30 seconds apart, and every spoken response is at
least 30 seconds after the initial check time. -/
theorem on_distress_cooldown_spec (last : ℚ) (events : List ℚ) (now : ℚ) :
    (now - last < distress_cooldown → on_distress last now = (last, false)) ∧
    (run_distress last events).Pairwise (fun a b => distress_cooldown ≤ b - a) ∧
    (∀ t ∈ run_distress last events, distress_cooldown ≤ t - last) := by
  refine ⟨fun h => by simp [on_distress, h], ?_⟩
  induction events generalizing last with
  | nil => simp [run_distress]
  | cons e rest ih =>
    by_cases h : e - last < distress_cooldown
    · have hr : run_distress last (e :: rest) = run_distress last rest := by
        simp [run_distress, on_distress, h]
      rw [hr]
      exact ih last
    · have hr : run_distress last (e :: rest) = e :: run_distress e rest := by
        simp [run_distress, on_distress, h]
      rw [hr]
      obtain ⟨hpw, hbound⟩ := ih e
      have hle : distress_cooldown ≤ e - last := not_lt.mp h
      refine ⟨List.pairwise_cons.mpr ⟨hbound, hpw⟩, ?_⟩
      intro t ht
      rcases List.mem_cons.mp ht with rfl | ht'
      · exact hle
      · have h1 := hbound t ht'
        have h2 : (0:ℚ) ≤ distress_cooldown := by norm_num [distress_cooldown]
        linarith

/-- Witness for `on_distress_cooldown_spec`: an event 10 seconds after the
stored check time is suppressed and does not reset the clock. -/
theorem on_distress_cooldown_spec_witness :
    ((10:ℚ) - 0 < distress_cooldown) ∧ on_distress 0 10 = (0, false) :=
  ⟨by norm_num [distress_cooldown],
    (on_distress_cooldown_spec 0 [] 10).1 (by norm_num [distress_cooldown])⟩

/-- A decision produced per cognition cycle (`SpeechDecision`).  The
`metadata` and `source` bookkeeping keys, which no control flow reads, are
omitted; dicts lacking a `reasoning` key get `""` here. -/
structure SpeechDecision where
  should_speak : Bool
  emotion : String
  content : String
  reasoning : String
deriving DecidableEq

/-- `CognitiveEngine._fallback_response`
(`cognitive_engine.py` lines 249-261). -/
def fallback_response (error_reason : String) : SpeechDecision :=
  ⟨false, "neutral", "", "Fallback due to error: " ++ error_reason⟩

/-- The `FALLBACK_RESPONSES` table (`demo_mode.py` lines 75-82). -/
def FALLBACK_RESPONSES : List (String × String) :=
  [("scene_description", "I can see an emotional scene unfolding here. The characters seem to be sharing an important moment."),
   ("question_answer", "I\x27m happy to help describe what\x27s happening. The scene shows people interacting in a meaningful way."),
   ("distress", "I noticed you might need a moment. Would you like me to pause the movie? I\x27m right here with you."),
   ("greeting", "Hello! I\x27m CineMate Care, your friendly movie companion. I\x27m here whenever you need me."),
   ("farewell", "It was lovely watching with you. Take care, and I hope to see you again soon!"),
   ("generic", "That\x27s an interesting scene. Let me know if you\x27d like me to describe anything specific.")]

/-- Category lookup into `FALLBACK_RESPONSES`. -/
def fallbackLookup (k : String) : Option String :=
  (FALLBACK_RESPONSES.find? fun p => p.1 == k).map Prod.snd

/-- A key of `DEMO_CLIP_RESPONSES`: either `"start-stop"` (parsed by
`get_response_for_timestamp` as the half-open interval `[start, stop)`) or
`"start+"` (everything from `start` on). -/
inductive TimeKey where
  | interval (start stop : ℚ)
  | openEnd (start : ℚ)
deriving DecidableEq

/-- One entry of the `DEMO_CLIP_RESPONSES` dict
(`demo_mode.py` lines 35-72). -/
structure ClipEntry where
  key : TimeKey
  scene : String
  emotion : String
  response : String
deriving DecidableEq

/-- The `DEMO_CLIP_RESPONSES` table, in dict insertion order (Python dicts
iterate in insertion order, which `get_response_for_timestamp` relies on). -/
def DEMO_CLIP_RESPONSES : List ClipEntry :=
  [⟨.interval 0 10, "Young Carl meets young Ellie in the abandoned house",
    "cheerful",
    "Oh, what a wonderful beginning! A young boy meeting a spirited girl in an old clubhouse. You can tell they\x27re going to be best friends."⟩,
   ⟨.interval 10 30, "Ellie shows Carl her adventure book", "cheerful",
    "She\x27s showing him her adventure book! Paradise Falls in South America - that\x27s her dream destination. What a big dream for such a young heart."⟩,
   ⟨.interval 30 60, "Carl and Ellie grow up together, get married", "warm",
    "Look at them growing up together, getting married in the same little clubhouse where they met. Some love stories are just meant to be."⟩,
   ⟨.interval 60 120, "They fix up their house, save money for Paradise Falls",
    "empathetic",
    "They\x27re saving pennies for their dream trip, but life keeps getting in the way. A flat tire, a broken leg... that\x27s how life goes sometimes, isn\x27t it?"⟩,
   ⟨.interval 120 180, "They discover they can\x27t have children",
    "empathetic",
    "This is a tender moment. They\x27re dealing with some sad news together. But see how he\x27s there for her? That\x27s what partners do."⟩,
   ⟨.interval 180 240, "Ellie gets sick and passes away", "empathetic",
    "This is a difficult scene. Ellie is saying goodbye. Would you like me to pause for a moment? It\x27s okay to feel this deeply."⟩,
   ⟨.openEnd 240, "Carl alone with the empty chair", "empathetic",
    "Carl is sitting alone now. But you know what? The love they shared isn\x27t gone. It lives on in every adventure he\x27s about to take."⟩]

/-- The membership test `get_response_for_timestamp` performs against one
parsed key: `float(start) <= seconds < float(end)` for `"start-end"`,
`seconds >= start` for `"start+"`. -/
def keyContains (k : TimeKey) (seconds : ℚ) : Bool :=
  match k with
  | .interval a b => decide (a ≤ seconds) && decide (seconds < b)
  | .openEnd a => decide (a ≤ seconds)

/-- The `{scene, emotion, response}` dict returned by
`get_response_for_timestamp`. -/
structure DemoResponse where
  scene : String
  emotion : String
  response : String
deriving DecidableEq

/-- The no-match result of `get_response_for_timestamp`
(`demo_mode.py` lines 150-155). -/
def genericDemoResponse : DemoResponse :=
  ⟨"General movie scene", "neutral", (fallbackLookup "generic").getD ""⟩

/-- `DemoMode.get_response_for_timestamp` (`demo_mode.py` lines 126-155):
scan the entries in order and return the first whose time range contains
`seconds`, falling back to the generic response. -/
def get_response_for_timestamp : List ClipEntry → ℚ → DemoResponse
  | [], _ => genericDemoResponse
  | e :: rest, seconds =>
    if keyContains e.key seconds then ⟨e.scene, e.emotion, e.response⟩
    else get_response_for_timestamp rest seconds

/-- The demo/scripted arm of `DemoController.get_response`
(`demo_mode.py` lines 353-369): the timestamp strategy when the demo clip is
active, else the hardcoded `scene_description` fallback. -/
def demoOrFallback (is_demo_active : Bool) (elapsed : ℚ) : SpeechDecision :=
  if is_demo_active then
    let d := get_response_for_timestamp DEMO_CLIP_RESPONSES elapsed
    ⟨true, d.emotion, d.response, ""⟩
  else ⟨true, "calm", (fallbackLookup "scene_description").getD "", ""⟩

/-- `DemoController.get_response` (`demo_mode.py` lines 339-369): pass the
Azure decision through when it arrived with non-empty content, otherwise
resolve via the demo timeline or the fallback table.  Python truthiness of
`azure_response.get("content")` is non-emptiness of the string. -/
def DemoController_get_response (azure : Option SpeechDecision)
    (is_demo_active : Bool) (elapsed : ℚ) : SpeechDecision :=
  match azure with
  | some r => if r.content = "" then demoOrFallback is_demo_active elapsed else r
  | none => demoOrFallback is_demo_active elapsed

theorem get_response_for_timestamp_find (entries : List ClipEntry)
    (seconds : ℚ) :
    get_response_for_timestamp entries seconds =
      (match entries.find? (fun e => keyContains e.key seconds) with
       | some e => ⟨e.scene, e.emotion, e.response⟩
       | none => genericDemoResponse) := by
  induction entries with
  | nil => rfl
  | cons e rest ih =>
    by_cases h : keyContains e.key seconds <;>
      simp [get_response_for_timestamp, List.find?_cons, h, ih]

theorem get_response_for_timestamp_mem (entries : List ClipEntry)
    (seconds : ℚ) :
    get_response_for_timestamp entries seconds = genericDemoResponse ∨
    ∃ e ∈ entries, get_response_for_timestamp entries seconds =
      ⟨e.scene, e.emotion, e.response⟩ := by
  rw [get_response_for_timestamp_find]
  cases hf : entries.find? (fun e => keyContains e.key seconds) with
  | none => exact Or.inl rfl
  | some e => exact Or.inr ⟨e, List.mem_of_find?_eq_some hf, rfl⟩

/-- C9: when the demo timeline is active, the timestamp-indexed lookup
returns the first registered entry whose time range contains the elapsed
seconds — equivalently the entry found by scanning the table in order — and
the generic fallback response when no registered range contains it; in
particular at 45 elapsed seconds it returns the `[30, 60)` entry. -/
theorem demo_timestamp_lookup_spec (seconds : ℚ) :
    (∀ e, DEMO_CLIP_RESPONSES.find? (fun e => keyContains e.key seconds) = some e →
      get_response_for_timestamp DEMO_CLIP_RESPONSES seconds =
        ⟨e.scene, e.emotion, e.response⟩) ∧
    (DEMO_CLIP_RESPONSES.find? (fun e => keyContains e.key seconds) = none →
      get_response_for_timestamp DEMO_CLIP_RESPONSES seconds =
        genericDemoResponse) ∧
    get_response_for_timestamp DEMO_CLIP_RESPONSES 45 =
      ⟨"Carl and Ellie grow up together, get married", "warm",
       "Look at them growing up together, getting married in the same little clubhouse where they met. Some love stories are just meant to be."⟩ := by
  refine ⟨fun e he => ?_, fun hn => ?_, ?_⟩
  · rw [get_response_for_timestamp_find, he]
  · rw [get_response_for_timestamp_find, hn]
  · norm_num [DEMO_CLIP_RESPONSES, get_response_for_timestamp, keyContains]

/-- Witness for `demo_timestamp_lookup_spec`: at elapsed time `-1` no entry
matches and the generic response is returned. -/
theorem demo_timestamp_lookup_spec_witness :
    DEMO_CLIP_RESPONSES.find? (fun e => keyContains e.key (-1)) = none ∧
    get_response_for_timestamp DEMO_CLIP_RESPONSES (-1) =
      genericDemoResponse := by
  have hn : DEMO_CLIP_RESPONSES.find? (fun e => keyContains e.key (-1)) = none := by
    norm_num [DEMO_CLIP_RESPONSES, List.find?_cons, keyContains]
  exact ⟨hn, (demo_timestamp_lookup_spec (-1)).2.1 hn⟩

theorem demo_response_nonempty (entries : List ClipEntry) (elapsed : ℚ)
    (hents : ∀ e ∈ entries, e.response ≠ "")
    (hgen : genericDemoResponse.response ≠ "") :
    (get_response_for_timestamp entries elapsed).response ≠ "" := by
  rcases get_response_for_timestamp_mem entries elapsed with h | ⟨e, he, h⟩
  · rw [h]; exact hgen
  · rw [h]; exact hents e he

/-- C2 counterexample: when the reasoning collaborator fails,
`CognitiveEngine._fallback_response` itself returns an EMPTY `content` (with
`should_speak = false`), and routing that decision through
`DemoController.get_response` with the demo timeline inactive yields the
`scene_description` category response, which differs from the `generic`
category response — so the claimed non-empty `generic` output is wrong on
both counts. -/
theorem fallback_generic_counterexample :
    (fallback_response "Request timed out").content = "" ∧
    (DemoController_get_response (some (fallback_response "Request timed out"))
        false 0).content = (fallbackLookup "scene_description").getD "" ∧
    (DemoController_get_response (some (fallback_response "Request timed out"))
        false 0).content ≠ (fallbackLookup "generic").getD "" := by
  refine ⟨rfl, rfl, ?_⟩
  decide

/-- C2 (amended): for every cognition cycle in which the reasoning
collaborator fails (its decision is `_fallback_response`, whose own content
is empty and whose `should_speak` is false), routing through
`DemoController.get_response` produces a decision with non-empty content:
the `scene_description` fallback category when the demo timeline is
inactive, and a demo-timeline entry (or the generic category) when it is
active. -/
theorem fallback_nonempty (error_reason : String) (is_demo_active : Bool)
    (elapsed : ℚ) :
    (DemoController_get_response (some (fallback_response error_reason))
        is_demo_active elapsed).content ≠ "" ∧
    (is_demo_active = false →
      (DemoController_get_response (some (fallback_response error_reason))
          is_demo_active elapsed).content =
        (fallbackLookup "scene_description").getD "") := by
  have hpass : DemoController_get_response (some (fallback_response error_reason))
      is_demo_active elapsed = demoOrFallback is_demo_active elapsed := by
    simp [DemoController_get_response, fallback_response]
  rw [hpass]
  cases is_demo_active with
  | false =>
    refine ⟨?_, fun _ => rfl⟩
    show (fallbackLookup "scene_description").getD "" ≠ ""
    decide
  | true =>
    refine ⟨?_, fun h => by simp at h⟩
    show (get_response_for_timestamp DEMO_CLIP_RESPONSES elapsed).response ≠ ""
    refine demo_response_nonempty DEMO_CLIP_RESPONSES elapsed ?_ (by decide)
    decide

/-- Witness for `fallback_nonempty` at a concrete input. -/
theorem fallback_nonempty_witness :
    (DemoController_get_response (some (fallback_response "Request timed out"))
        false 45).content ≠ "" ∧
    (DemoController_get_response (some (fallback_response "Request timed out"))
        false 45).content = (fallbackLookup "scene_description").getD "" :=
  ⟨(fallback_nonempty "Request timed out" false 45).1,
    (fallback_nonempty "Request timed out" false 45).2 rfl⟩

/-- The reasoner payload after `json.loads` succeeded on the model response:
each `SpeechDecision` field is present or absent. -/
structure RawDecision where
  should_speak : Option Bool
  emotion : Option String
  content : Option String
  reasoning : Option String
deriving DecidableEq

/-- Outcome of the chat-completions call inside
`CognitiveEngine.analyze_context`: a parsed JSON object, a
`json.JSONDecodeError`, or an exception from the API call. -/
inductive ReasonerOutcome where
  | parsed (r : RawDecision)
  | parseFailure
  | apiFailure (msg : String)

/-- The decision plumbing of `CognitiveEngine.analyze_context`
(`cognitive_engine.py` lines 202-247): on a parsed payload, apply the
`setdefault` validation to each field and return the decision; on a JSON or
API failure, return `_fallback_response`.  Prompt construction and the
`metadata` key are omitted. -/
def analyze_context : ReasonerOutcome → SpeechDecision
  | .parsed r =>
    ⟨r.should_speak.getD false, r.emotion.getD "neutral", r.content.getD "",
      r.reasoning.getD "No reasoning provided"⟩
  | .parseFailure => fallback_response "JSON parsing error"
  | .apiFailure msg => fallback_response msg

/-- C8 counterexample: a parseable payload with every field missing is
returned as a decision, but the `reasoning` default is the string
`"No reasoning provided"`, not `"no reasoning"` as claimed. -/
theorem analyze_context_reasoning_default_counterexample :
    (analyze_context (.parsed ⟨none, none, none, none⟩)).reasoning =
      "No reasoning provided" ∧
    (analyze_context (.parsed ⟨none, none, none, none⟩)).reasoning ≠
      "no reasoning" :=
  ⟨rfl, by decide⟩

/-- C8 (amended): when the reasoning collaborator returns a parseable
payload with fields missing, `analyze_context` fills each missing field with
its default — `should_speak = false`, `emotion = "neutral"`,
`content = ""`, `reasoning = "No reasoning provided"` — keeps every field
that is present, and returns the decision rather than treating it as a hard
failure. -/
theorem analyze_context_defaults (r : RawDecision) :
    (r.should_speak = none → (analyze_context (.parsed r)).should_speak = false) ∧
    (r.emotion = none → (analyze_context (.parsed r)).emotion = "neutral") ∧
    (r.content = none → (analyze_context (.parsed r)).content = "") ∧
    (r.reasoning = none →
      (analyze_context (.parsed r)).reasoning = "No reasoning provided") ∧
    (∀ b, r.should_speak = some b → (analyze_context (.parsed r)).should_speak = b) ∧
    (∀ s, r.emotion = some s → (analyze_context (.parsed r)).emotion = s) ∧
    (∀ s, r.content = some s → (analyze_context (.parsed r)).content = s) ∧
    (∀ s, r.reasoning = some s → (analyze_context (.parsed r)).reasoning = s) := by
  refine ⟨fun h => ?_, fun h => ?_, fun h => ?_, fun h => ?_,
    fun b h => ?_, fun s h => ?_, fun s h => ?_, fun s h => ?_⟩ <;>
    simp [analyze_context, h]

/-- Witness for `analyze_context_defaults`: a payload carrying only
`content` keeps it and receives the defaults everywhere else. -/
theorem analyze_context_defaults_witness :
    (analyze_context (.parsed ⟨none, none, some "Lovely scene!", none⟩)).should_speak
        = false ∧
    (analyze_context (.parsed ⟨none, none, some "Lovely scene!", none⟩)).emotion
        = "neutral" ∧
    (analyze_context (.parsed ⟨none, none, some "Lovely scene!", none⟩)).content
        = "Lovely scene!" ∧
    (analyze_context (.parsed ⟨none, none, some "Lovely scene!", none⟩)).reasoning
        = "No reasoning provided" :=
  ⟨(analyze_context_defaults ⟨none, none, some "Lovely scene!", none⟩).1 rfl,
    (analyze_context_defaults ⟨none, none, some "Lovely scene!", none⟩).2.1 rfl,
    (analyze_context_defaults ⟨none, none, some "Lovely scene!", none⟩).2.2.2.2.2.2.1
      "Lovely scene!" rfl,
    (analyze_context_defaults ⟨none, none, some "Lovely scene!", none⟩).2.2.2.1 rfl⟩

end CineMate
